import Mathlib

/-!
Shallow embedding of the reconciliation core of the IMS backend
(Shopify inventory-management service): the webhook handlers for
product / order / refund / inventory events, the manual sync route,
and the HMAC signature verifier.

Conventions of the embedding:
* The relational store is a pair of lists (`products`, `variants`);
  a SQL `SELECT ... WHERE c = $1 ... rows[0]` becomes `List.find?`,
  a SQL `UPDATE ... WHERE c = $1` becomes `List.map` guarded by the
  same predicate (every matching row is updated, as in SQL), and an
  `INSERT` appends to the list.  Each `db.query` call in the source is
  an independent auto-committed statement (the source opens no
  transaction), which the embedding mirrors by threading the store
  through each statement one at a time.
* JSON payload fields that the source reads through `x || default`
  or optional chaining are modelled as `Option` values, with absence
  mapped to `none` and `x || d` mapped to `Option.getD x d`.
* Quantities, prices and external identifiers are integers.
-/

namespace IMS

/-- A row of the `product_variants` table (schema used by the variant-level
    webhook routes: columns `id, product_id, shopify_variant_id,
    shopify_inventory_item_id, sku, title, option1..3, price,
    compare_at_price, stock, weight, weight_unit`). -/
structure Variant where
  id : Nat
  productId : Nat
  shopifyVariantId : Option Int
  shopifyInventoryItemId : Option Int
  sku : String
  title : String
  option1 : Option String
  option2 : Option String
  option3 : Option String
  price : Int
  compareAtPrice : Option Int
  stock : Int
  weight : Option Int
  weightUnit : String
deriving Repr, DecidableEq

/-- A row of the `products` table (columns `id, shopify_product_id, name,
    description, product_type, vendor, status`).  `name` is `Option` because
    the update handler writes the payload title verbatim (absent maps to
    SQL NULL). -/
structure Product where
  id : Nat
  shopifyProductId : Option Int
  name : Option String
  description : Option String
  productType : String
  vendor : String
  status : String
deriving Repr, DecidableEq

/-- The local store of record: the two tables. -/
structure Store where
  products : List Product
  variants : List Variant
deriving Repr, DecidableEq

/-- HTTP response as far as the claims observe it: status code, the
    `success` flag and the optional `action` field of the JSON body. -/
structure Response where
  status : Nat
  success : Bool
  action : Option String
deriving Repr, DecidableEq

/-- Source `findVariantByShopifyId`:
    `SELECT * FROM product_variants WHERE shopify_variant_id = $1`,
    returning `rows[0]` or null. -/
def findVariantByShopifyId (st : Store) (svid : Int) : Option Variant :=
  st.variants.find? (fun v => v.shopifyVariantId = some svid)

/-- Source `updateVariantStock`:
    `UPDATE product_variants SET stock = $1 WHERE id = $2` with
    `$1 = Math.max(0, newStock)` — the write itself clamps at zero. -/
def updateVariantStock (st : Store) (variantId : Nat) (newStock : Int) : Store :=
  { st with
    variants := st.variants.map (fun v =>
      if v.id = variantId then { v with stock := max 0 newStock } else v) }

/-- Source `checkLowStock`: logs a low-stock warning when
    `stock < threshold` (threshold defaults to 10 at every call site).
    Returns whether the signal is emitted. -/
def checkLowStock (stock : Int) (threshold : Int) : Bool :=
  stock < threshold

/-- One `line_items` entry of an order payload: `variant_id` (may be
    absent), `quantity`, `name`. -/
structure LineItem where
  variantId : Option Int
  quantity : Int
  name : String
deriving Repr, DecidableEq

/-- An order webhook payload as far as the handlers read it. -/
structure Order where
  lineItems : List LineItem
deriving Repr, DecidableEq

/-- One `refund_line_items` entry: `quantity` plus the embedded
    `line_item`'s `variant_id` (optional-chained in the source). -/
structure RefundLineItem where
  quantity : Int
  lineItemVariantId : Option Int
  lineItemName : String
deriving Repr, DecidableEq

/-- A refund webhook payload. -/
structure Refund where
  refundLineItems : List RefundLineItem
deriving Repr, DecidableEq

/-- An inventory-level webhook payload: `inventory_item_id`, `available`. -/
structure InventoryLevel where
  inventoryItemId : Int
  available : Int
deriving Repr, DecidableEq

/-- One entry of a product payload's `variants` array, fields as the
    handlers read them (absent fields are `none`). -/
structure VariantPayload where
  id : Int
  inventoryItemId : Option Int
  sku : Option String
  title : Option String
  option1 : Option String
  option2 : Option String
  option3 : Option String
  price : Option Int
  compareAtPrice : Option Int
  inventoryQuantity : Option Int
  weight : Option Int
  weightUnit : Option String
deriving Repr, DecidableEq

/-- A product webhook payload (`id`, `title`, `body_html`, `product_type`,
    `vendor`, `status`, `variants`). -/
structure ProductPayload where
  id : Option Int
  title : Option String
  bodyHtml : Option String
  productType : Option String
  vendor : Option String
  status : Option String
  variants : List VariantPayload
deriving Repr, DecidableEq

/-- Body of the `orders/create` per-item loop: skip items without a
    `variant_id`; look the variant up by Shopify variant id; if found,
    compute `newStock = Math.max(0, oldStock - item.quantity)` and write it
    through `updateVariantStock`; if not found, log and continue. -/
def processLineItem (st : Store) (item : LineItem) : Store :=
  match item.variantId with
  | none => st
  | some vid =>
    match findVariantByShopifyId st vid with
    | none => st
    | some v => updateVariantStock st v.id (max 0 (v.stock - item.quantity))

/-- Route handler `POST /orders/create` (after signature verification):
    processes every line item in order, then answers 200/success. -/
def ordersCreate (st : Store) (order : Order) : Store × Response :=
  (order.lineItems.foldl processLineItem st, ⟨200, true, none⟩)

/-- Body of the `orders/cancelled` per-item loop: restore stock,
    `newStock = oldStock + item.quantity`, written through
    `updateVariantStock` (which clamps at zero). -/
def processCancelItem (st : Store) (item : LineItem) : Store :=
  match item.variantId with
  | none => st
  | some vid =>
    match findVariantByShopifyId st vid with
    | none => st
    | some v => updateVariantStock st v.id (v.stock + item.quantity)

/-- Route handler `POST /orders/cancelled`. -/
def ordersCancelled (st : Store) (order : Order) : Store × Response :=
  (order.lineItems.foldl processCancelItem st, ⟨200, true, none⟩)

/-- Body of the `refunds/create` per-item loop: restore the refunded
    quantity onto the variant of the embedded line item. -/
def processRefundItem (st : Store) (item : RefundLineItem) : Store :=
  match item.lineItemVariantId with
  | none => st
  | some vid =>
    match findVariantByShopifyId st vid with
    | none => st
    | some v => updateVariantStock st v.id (v.stock + item.quantity)

/-- Route handler `POST /refunds/create`. -/
def refundsCreate (st : Store) (refund : Refund) : Store × Response :=
  (refund.refundLineItems.foldl processRefundItem st, ⟨200, true, none⟩)

/-- Route handler `POST /inventory-levels/update`:
    `UPDATE product_variants SET stock = $1 WHERE shopify_inventory_item_id
    = $2` with `$1 = inventoryLevel.available` — the payload value is
    written verbatim, with no clamp. -/
def inventoryLevelsUpdate (st : Store) (p : InventoryLevel) : Store × Response :=
  ({ st with
     variants := st.variants.map (fun v =>
       if v.shopifyInventoryItemId = some p.inventoryItemId then
         { v with stock := p.available } else v) },
   ⟨200, true, none⟩)

/-- New `product_variants` row built by the insert statements of
    `products/create` and `products/update` (defaults as in the source:
    `sku || `SKU-id``, `title || 'Default'`, `price || 0`,
    `inventory_quantity || 0`, `weight_unit || 'kg'`). -/
def mkNewVariant (localId : Nat) (pid : Nat) (v : VariantPayload) : Variant :=
  { id := localId
    productId := pid
    shopifyVariantId := some v.id
    shopifyInventoryItemId := v.inventoryItemId
    sku := v.sku.getD ("SKU-" ++ toString v.id)
    title := v.title.getD "Default"
    option1 := v.option1
    option2 := v.option2
    option3 := v.option3
    price := v.price.getD 0
    compareAtPrice := v.compareAtPrice
    stock := v.inventoryQuantity.getD 0
    weight := v.weight
    weightUnit := v.weightUnit.getD "kg" }

/-- Field assignment of the `products/update` variant UPDATE statement:
    every column is overwritten from the payload, absent payload fields
    falling back to the hard-coded defaults of the source. -/
def mergeVariantFields (w : Variant) (v : VariantPayload) : Variant :=
  { w with
    sku := v.sku.getD ("SKU-" ++ toString v.id)
    title := v.title.getD "Default"
    option1 := v.option1
    option2 := v.option2
    option3 := v.option3
    price := v.price.getD 0
    compareAtPrice := v.compareAtPrice
    stock := v.inventoryQuantity.getD 0
    weight := v.weight
    weightUnit := v.weightUnit.getD "kg" }

/-- One iteration of the `products/update` variant-sync loop: if a row
    with the payload's Shopify variant id exists, UPDATE it (all matching
    rows, per SQL); otherwise INSERT a fresh row under `pid`.  The second
    component counts forward the serial id for inserts. -/
def syncVariantStep (pid : Nat) (acc : Store × Nat) (v : VariantPayload) : Store × Nat :=
  if acc.1.variants.any (fun w => w.shopifyVariantId = some v.id) then
    ({ acc.1 with
       variants := acc.1.variants.map (fun w =>
         if w.shopifyVariantId = some v.id then mergeVariantFields w v else w) },
     acc.2)
  else
    ({ acc.1 with variants := acc.1.variants ++ [mkNewVariant acc.2 pid v] },
     acc.2 + 1)

/-- New `products` row built by the insert statements of `products/create`
    and the `products/update` fallback (defaults as in the source). -/
def mkNewProduct (localId : Nat) (p : ProductPayload) : Product :=
  { id := localId
    shopifyProductId := p.id
    name := p.title
    description := p.bodyHtml
    productType := p.productType.getD "General"
    vendor := p.vendor.getD "Default Vendor"
    status := p.status.getD "active" }

/-- Route handler `POST /products/create`: validate `id` and `title`
    are present (else the handler throws and answers 500); if a product
    with the same Shopify product id already exists, skip (200, action
    `skipped`, no statement executed); otherwise INSERT the product and
    all its variants.  `freshPid` / `freshVid` are the next serial ids. -/
def productsCreate (st : Store) (freshPid freshVid : Nat) (p : ProductPayload) :
    Store × Response :=
  match p.id, p.title with
  | some pid, some _ =>
    if st.products.any (fun pr => pr.shopifyProductId = some pid) then
      (st, ⟨200, true, some "skipped"⟩)
    else
      let st1 : Store := { st with products := st.products ++ [mkNewProduct freshPid p] }
      let st2 : Store :=
        { st1 with
          variants := st1.variants ++
            ((List.range p.variants.length).zip p.variants).map
              (fun iv => mkNewVariant (freshVid + iv.1) freshPid iv.2) }
      (st2, ⟨200, true, some "created"⟩)
  | _, _ => (st, ⟨500, false, none⟩)

/-- Route handler `POST /products/update`: look the product up by Shopify
    product id; if absent, INSERT it as a fallback; if present, UPDATE its
    descriptive columns, every one overwritten from the payload with the
    source's `|| default` fallbacks.  Then run the variant-sync loop.
    Answers 200 with action `updated` in both branches. -/
def productsUpdate (st : Store) (freshPid freshVid : Nat) (p : ProductPayload) :
    Store × Response :=
  let existing : Option Product :=
    match p.id with
    | none => none
    | some pid => st.products.find? (fun pr => pr.shopifyProductId = some pid)
  match existing with
  | none =>
    let st1 : Store := { st with products := st.products ++ [mkNewProduct freshPid p] }
    ((p.variants.foldl (syncVariantStep freshPid) (st1, freshVid)).1,
     ⟨200, true, some "updated"⟩)
  | some pr =>
    let st1 : Store :=
      { st with
        products := st.products.map (fun q =>
          if q.shopifyProductId = p.id then
            { q with
              name := p.title
              description := p.bodyHtml
              productType := p.productType.getD "General"
              vendor := p.vendor.getD "Default Vendor"
              status := p.status.getD "active" }
          else q) }
    ((p.variants.foldl (syncVariantStep pr.id) (st1, freshVid)).1,
     ⟨200, true, some "updated"⟩)

/-- Execution of the `orders/create` loop when the db statement of the
    `n`-th line item throws: every statement before it is already
    auto-committed (the source opens no transaction), the exception
    propagates to the catch block which only answers 500 — no rollback
    statement is issued.  Returns the store as the database holds it and
    whether the loop ran to completion. -/
def runItemsWithFailure : Store → List LineItem → Nat → Store × Bool
  | st, [], _ => (st, true)
  | st, _ :: _, 0 => (st, false)
  | st, item :: rest, Nat.succ n => runItemsWithFailure (processLineItem st item) rest n

/-- Repeated delivery of the same order webhook: `ordersCreateIter st o n`
    is the store after submitting the event `n` times. -/
def ordersCreateIter (st : Store) (o : Order) : Nat → Store
  | 0 => st
  | n + 1 => (ordersCreate (ordersCreateIter st o n) o).1

/-- Outcome of the `verifyShopifyWebhook` middleware: pass control to the
    route handler (`next`), reject with 401, or answer 500 (configuration
    error).  Only `next` lets the event be processed. -/
inductive VerifyResult where
  | next
  | unauthorized
  | serverError
deriving Repr, DecidableEq

/-- Source `verifyShopifyWebhook` middleware, parameterised by the HMAC
    primitive `hmacBase64 secret body` (the base64 digest that
    `crypto.createHmac('sha256', secret).update(rawBody).digest('base64')`
    computes).  Control flow of the source: missing header gives 401;
    missing secret or missing raw body gives 500 (JS `!x` is true for the
    empty string); `crypto.timingSafeEqual` throws on buffers of unequal
    length, which the catch block turns into 401; otherwise the claimed
    signature is accepted exactly when it equals the computed digest. -/
def verifyShopifyWebhook (hmacBase64 : String → String → String)
    (hmacHeader : Option String) (secret rawBody : String) : VerifyResult :=
  match hmacHeader with
  | none => .unauthorized
  | some header =>
    if secret = "" then .serverError
    else if rawBody = "" then .serverError
    else
      let calculatedHash := hmacBase64 secret rawBody
      if calculatedHash.length ≠ header.length then .unauthorized
      else if calculatedHash = header then .next
      else .unauthorized

namespace Flat

/-- A row of the flat `products` table used by the order-level webhook
    routes and the manual sync route (schema of `database.js`: columns
    `id, name, sku, price, stock, shopify_product_id, shopify_variant_id,
    shopify_inventory_item_id`). -/
structure ProductRow where
  id : Nat
  name : String
  sku : String
  price : Int
  stock : Int
  shopifyProductId : Option Int
  shopifyVariantId : Option Int
  shopifyInventoryItemId : Option Int
deriving Repr, DecidableEq

/-- The normalized record `syncProductFromShopify` returns for the manual
    sync route (first variant of the remote product). -/
structure SyncData where
  shopifyProductId : Int
  shopifyVariantId : Int
  shopifyInventoryItemId : Int
  name : String
  sku : String
  price : Int
  stock : Int
deriving Repr, DecidableEq

/-- Route handler `POST /sync-product/:productId` (flat-schema version):
    match an existing row by `shopify_product_id = $1 OR sku = $2`
    (`rows[0]`); if matched, UPDATE that row overwriting every column —
    including the three bound Shopify identifiers — with the incoming
    values; otherwise INSERT a new row. -/
def syncProduct (st : List ProductRow) (freshId : Nat) (d : SyncData) :
    List ProductRow × Response :=
  match st.find? (fun r =>
      r.shopifyProductId = some d.shopifyProductId || r.sku = d.sku) with
  | some r =>
    (st.map (fun q =>
      if q.id = r.id then
        { q with
          name := d.name
          sku := d.sku
          price := d.price
          stock := d.stock
          shopifyProductId := some d.shopifyProductId
          shopifyVariantId := some d.shopifyVariantId
          shopifyInventoryItemId := some d.shopifyInventoryItemId }
      else q),
     ⟨200, true, some "updated"⟩)
  | none =>
    (st ++ [{ id := freshId
              name := d.name
              sku := d.sku
              price := d.price
              stock := d.stock
              shopifyProductId := some d.shopifyProductId
              shopifyVariantId := some d.shopifyVariantId
              shopifyInventoryItemId := some d.shopifyInventoryItemId }],
     ⟨200, true, some "created"⟩)

end Flat

/-! Concrete data used by witnesses and counterexamples. -/

/-- A variant with stock 10, bound to Shopify variant id 100 and
    inventory item id 110. -/
def exVariant : Variant :=
  ⟨1, 1, some 100, some 110, "SKU-A", "Default", none, none, none, 5, none, 10, none, "kg"⟩

/-- A second variant with stock 8, bound to Shopify variant id 101. -/
def exVariant2 : Variant :=
  ⟨2, 1, some 101, some 111, "SKU-B", "Default", none, none, none, 6, none, 8, none, "kg"⟩

/-- Store holding just `exVariant`. -/
def exStore : Store := ⟨[], [exVariant]⟩

/-- Store holding `exVariant` and `exVariant2`. -/
def exStore2 : Store := ⟨[], [exVariant, exVariant2]⟩

/-- An order with a single line item: variant 100, quantity 3. -/
def exOrder : Order := ⟨[⟨some 100, 3, "Shoe"⟩]⟩

/-- A two-item order: variant 100 quantity 3, then variant 101 quantity 2. -/
def exOrder2 : Order := ⟨[⟨some 100, 3, "Shoe"⟩, ⟨some 101, 2, "Hat"⟩]⟩

/-- An inventory-level payload carrying a negative absolute quantity. -/
def exNegLevel : InventoryLevel := ⟨110, -5⟩

/-! Helper lemmas. -/

/-- Every stock stored in the variants table is non-negative. -/
def stocksNonneg (st : Store) : Prop :=
  ∀ v ∈ st.variants, 0 ≤ v.stock

instance (st : Store) : Decidable (stocksNonneg st) := by
  unfold stocksNonneg; infer_instance

/-- `updateVariantStock` preserves non-negativity: the written value is
    clamped by `Math.max(0, ·)`. -/
theorem updateVariantStock_nonneg (st : Store) (i : Nat) (n : Int)
    (h : stocksNonneg st) : stocksNonneg (updateVariantStock st i n) := by
  intro v hv
  simp only [updateVariantStock, List.mem_map] at hv
  obtain ⟨w, hw, rfl⟩ := hv
  split
  · exact le_max_left 0 n
  · exact h w hw

/-- The order-create loop body preserves non-negativity. -/
theorem processLineItem_nonneg (st : Store) (it : LineItem)
    (h : stocksNonneg st) : stocksNonneg (processLineItem st it) := by
  unfold processLineItem
  split
  · exact h
  · split
    · exact h
    · exact updateVariantStock_nonneg _ _ _ h

/-- The order-cancelled loop body preserves non-negativity. -/
theorem processCancelItem_nonneg (st : Store) (it : LineItem)
    (h : stocksNonneg st) : stocksNonneg (processCancelItem st it) := by
  unfold processCancelItem
  split
  · exact h
  · split
    · exact h
    · exact updateVariantStock_nonneg _ _ _ h

/-- The refund loop body preserves non-negativity. -/
theorem processRefundItem_nonneg (st : Store) (it : RefundLineItem)
    (h : stocksNonneg st) : stocksNonneg (processRefundItem st it) := by
  unfold processRefundItem
  split
  · exact h
  · split
    · exact h
    · exact updateVariantStock_nonneg _ _ _ h

/-- A fold preserves any invariant its step preserves. -/
theorem foldl_preserves {α β : Type} (f : α → β → α) (P : α → Prop)
    (hf : ∀ a b, P a → P (f a b)) :
    ∀ (l : List β) (a : α), P a → P (l.foldl f a) := by
  intro l
  induction l with
  | nil => intro a ha; exact ha
  | cons b t ih => intro a ha; exact ih (f a b) (hf a b ha)

/-! Claim theorems. -/

/-- Claim C9, counterexample: the claim reads the low-stock signal as
    emitted exactly when the resulting quantity is at or below the
    threshold; at stock 10 with the default threshold 10 the source emits
    nothing (`stock < threshold` is strict), so the claimed equivalence is
    false at this input. -/
theorem lowStock_at_threshold_counterexample :
    ¬ ((checkLowStock 10 10 = true) ↔ ((10 : Int) ≤ 10)) := by
  decide

/-- Claim C9, amended: after a stock mutation the low-stock warning is
    emitted exactly when the resulting quantity is strictly below the
    threshold (10 at every call site); at-threshold quantities emit
    nothing.  The emission itself is a log call placed after the already
    auto-committed stock write, so it cannot abort the mutation. -/
theorem lowStock_emitted_iff_strictly_below (s t : Int) :
    checkLowStock s t = true ↔ s < t := by
  simp [checkLowStock]

/-- Claim C10: a product-create event whose Shopify product id already
    matches a local product performs no insert and no update — the store
    is returned unchanged and the response is 200/success with action
    `skipped`. -/
theorem duplicate_product_create_skips (st : Store) (f g : Nat)
    (p : ProductPayload) (pid : Int) (t : String)
    (hid : p.id = some pid) (ht : p.title = some t)
    (hdup : st.products.any (fun pr => pr.shopifyProductId = some pid) = true) :
    productsCreate st f g p = (st, ⟨200, true, some "skipped"⟩) := by
  unfold productsCreate
  rw [hid, ht]
  simp [hdup]

/-- Claim C10, witness: a concrete duplicate product-create is a no-op. -/
theorem duplicate_product_create_skips_witness :
    (⟨[⟨3, some 900, some "P", none, "General", "V", "active"⟩], []⟩ :
        Store).products.any (fun pr => pr.shopifyProductId = some 900) = true
    ∧ productsCreate ⟨[⟨3, some 900, some "P", none, "General", "V", "active"⟩], []⟩
        7 9 ⟨some 900, some "P", none, none, none, none, []⟩ =
      (⟨[⟨3, some 900, some "P", none, "General", "V", "active"⟩], []⟩,
       ⟨200, true, some "skipped"⟩) :=
  ⟨by decide,
   duplicate_product_create_skips _ 7 9 _ 900 "P" rfl rfl (by decide)⟩

/-- Claim C3: an order-create line item of quantity `k` against a variant
    whose current stock is `s` stores `max 0 (s - k)` on every row with
    the resolved variant's local id; such a row exists, the result is
    never negative, and it is exactly 0 whenever `k` exceeds `s`. -/
theorem order_delta_floors_at_zero (st : Store) (v : Variant)
    (vid s k : Int) (nm : String) (o : Order)
    (hf : findVariantByShopifyId st vid = some v) (hs : v.stock = s)
    (h0 : 0 ≤ s) (hk : 0 ≤ k) (ho : o.lineItems = [⟨some vid, k, nm⟩]) :
    (∃ w ∈ (ordersCreate st o).1.variants, w.id = v.id)
    ∧ (∀ w ∈ (ordersCreate st o).1.variants, w.id = v.id →
        w.stock = max 0 (s - k) ∧ 0 ≤ w.stock ∧ (s < k → w.stock = 0)) := by
  have hv : v ∈ st.variants := List.mem_of_find?_eq_some hf
  have hres : (ordersCreate st o).1 =
      updateVariantStock st v.id (max 0 (v.stock - k)) := by
    simp [ordersCreate, ho, processLineItem, hf]
  constructor
  · refine ⟨{ v with stock := max 0 (max 0 (v.stock - k)) }, ?_, rfl⟩
    rw [hres]
    simp only [updateVariantStock, List.mem_map]
    exact ⟨v, hv, by simp⟩
  · intro w hw hwid
    rw [hres] at hw
    simp only [updateVariantStock, List.mem_map] at hw
    obtain ⟨u, hu, rfl⟩ := hw
    by_cases hui : u.id = v.id
    · simp only [hui, if_pos rfl] at hwid ⊢
      refine ⟨?_, ?_, ?_⟩
      · show max 0 (max 0 (v.stock - k)) = max 0 (s - k)
        omega
      · show (0 : Int) ≤ max 0 (max 0 (v.stock - k))
        omega
      · intro hlt
        show max 0 (max 0 (v.stock - k)) = 0
        omega
    · simp only [if_neg hui] at hwid
      exact absurd hwid hui

/-- Claim C3, witness: a concrete oversold line item (stock 10, quantity
    15) lands at exactly 0. -/
theorem order_delta_floors_at_zero_witness :
    findVariantByShopifyId exStore 100 = some exVariant
    ∧ ((∃ w ∈ (ordersCreate exStore ⟨[⟨some 100, 15, "Shoe"⟩]⟩).1.variants,
          w.id = exVariant.id)
       ∧ (∀ w ∈ (ordersCreate exStore ⟨[⟨some 100, 15, "Shoe"⟩]⟩).1.variants,
            w.id = exVariant.id →
            w.stock = max 0 (10 - 15) ∧ 0 ≤ w.stock ∧ ((10 : Int) < 15 → w.stock = 0))) :=
  ⟨by decide,
   order_delta_floors_at_zero exStore exVariant 100 10 15 "Shoe"
     ⟨[⟨some 100, 15, "Shoe"⟩]⟩ (by decide) (by decide) (by decide) (by decide) rfl⟩

/-- Claim C2, counterexample: the absolute-set path does not clamp — an
    inventory-level payload with `available = -5` stores -5, so the
    claimed invariant that every operation clamps at zero is false. -/
theorem absolute_set_negative_counterexample :
    stocksNonneg exStore
    ∧ (inventoryLevelsUpdate exStore exNegLevel).1.variants.map Variant.stock = [-5]
    ∧ ¬ stocksNonneg (inventoryLevelsUpdate exStore exNegLevel).1 := by
  refine ⟨by decide, by decide, by decide⟩

/-- Claim C2, amended: the delta paths (order create / cancel / refund)
    preserve non-negative stock for every payload, because every write
    goes through the clamped `updateVariantStock`; the absolute-set path
    (`inventory-levels/update`) instead writes the payload's `available`
    verbatim into every matching row, so a negative absolute value is
    stored negative. -/
theorem delta_clamps_absolute_writes_verbatim (st : Store) (o oc : Order)
    (r : Refund) (p : InventoryLevel) (h : stocksNonneg st) :
    stocksNonneg (ordersCreate st o).1
    ∧ stocksNonneg (ordersCancelled st oc).1
    ∧ stocksNonneg (refundsCreate st r).1
    ∧ ∀ v ∈ (inventoryLevelsUpdate st p).1.variants,
        v.shopifyInventoryItemId = some p.inventoryItemId → v.stock = p.available := by
  refine ⟨?_, ?_, ?_, ?_⟩
  · exact foldl_preserves processLineItem stocksNonneg
      processLineItem_nonneg o.lineItems st h
  · exact foldl_preserves processCancelItem stocksNonneg
      processCancelItem_nonneg oc.lineItems st h
  · exact foldl_preserves processRefundItem stocksNonneg
      processRefundItem_nonneg r.refundLineItems st h
  · intro v hv hvid
    simp only [inventoryLevelsUpdate, List.mem_map] at hv
    obtain ⟨u, hu, rfl⟩ := hv
    by_cases hc : u.shopifyInventoryItemId = some p.inventoryItemId
    · simp [hc]
    · simp only [if_neg hc] at hvid
      exact absurd hvid hc

/-- Claim C2, witness: the amended statement at a concrete store,
    order, cancellation, refund and (negative) inventory level. -/
theorem delta_clamps_absolute_writes_verbatim_witness :
    stocksNonneg exStore2
    ∧ (stocksNonneg (ordersCreate exStore2 exOrder2).1
       ∧ stocksNonneg (ordersCancelled exStore2 exOrder2).1
       ∧ stocksNonneg (refundsCreate exStore2 ⟨[⟨3, some 100, "Shoe"⟩]⟩).1
       ∧ ∀ v ∈ (inventoryLevelsUpdate exStore2 exNegLevel).1.variants,
           v.shopifyInventoryItemId = some exNegLevel.inventoryItemId →
           v.stock = exNegLevel.available) :=
  ⟨by decide,
   delta_clamps_absolute_writes_verbatim exStore2 exOrder2 exOrder2
     ⟨[⟨3, some 100, "Shoe"⟩]⟩ exNegLevel (by decide)⟩

/-- Submitting a one-line-item order `n` times against a store whose
    variants table is exactly the matched variant: each delivery
    re-applies the clamped delta, so `n` deliveries land at
    `max 0 (stock - n * k)`. -/
theorem ordersCreateIter_singleton (st : Store) (v : Variant) (vid k : Int)
    (nm : String) (o : Order)
    (hv : st.variants = [v]) (hid : v.shopifyVariantId = some vid)
    (ho : o.lineItems = [⟨some vid, k, nm⟩]) (hs : 0 ≤ v.stock) (hk : 0 ≤ k) :
    ∀ n : Nat, ordersCreateIter st o n =
      { st with variants := [{ v with stock := max 0 (v.stock - n * k) }] } := by
  intro n
  induction n with
  | zero =>
    show st = _
    rw [show ((0 : Nat) : Int) * k = 0 by simp, sub_zero, max_eq_right hs]
    rw [← hv]
  | succ m ih =>
    show (ordersCreate (ordersCreateIter st o m) o).1 = _
    rw [ih]
    simp only [ordersCreate, ho, List.foldl_cons, List.foldl_nil, processLineItem,
      findVariantByShopifyId, List.find?, hid, decide_True, updateVariantStock,
      List.map, if_pos rfl]
    simp only [if_true, Variant.mk.injEq, List.cons.injEq, Store.mk.injEq,
      and_true, true_and]
    have hcast : ((m + 1 : Nat) : Int) * k = (m : Int) * k + k := by
      push_cast
      ring
    rw [hcast]
    generalize (m : Int) * k = y
    omega

/-- Claim C1, counterexample: no handler records an external event
    identifier, so a retried order-create delivery is re-applied in full —
    delivering the same event (variant 100, quantity 3, stock 10) twice
    leaves stock 4, not the claimed same final state as one delivery
    (stock 7). -/
theorem retried_order_event_counterexample :
    (ordersCreateIter exStore exOrder 1).variants.map Variant.stock = [7]
    ∧ (ordersCreateIter exStore exOrder 2).variants.map Variant.stock = [4]
    ∧ ordersCreateIter exStore exOrder 2 ≠ ordersCreateIter exStore exOrder 1 := by
  refine ⟨by decide, by decide, by decide⟩

/-- Claim C1, amended: the code records no external event identifiers and
    has no short-circuit path; delivering the same one-item order event
    `n` times applies its clamped stock delta `n` times, landing at
    `max 0 (stock - n * k)` — equal to one delivery only when the delta is
    degenerate.  Only the absolute-set path (`inventory-levels/update`) is
    naturally idempotent: a second identical delivery leaves the store
    unchanged. -/
theorem same_order_event_not_idempotent (st : Store) (v : Variant) (vid k : Int)
    (nm : String) (o : Order)
    (hv : st.variants = [v]) (hid : v.shopifyVariantId = some vid)
    (ho : o.lineItems = [⟨some vid, k, nm⟩]) (hs : 0 ≤ v.stock) (hk : 0 ≤ k) :
    (∀ n : Nat, (ordersCreateIter st o n).variants.map Variant.stock
        = [max 0 (v.stock - n * k)])
    ∧ ∀ (st2 : Store) (q : InventoryLevel),
        (inventoryLevelsUpdate (inventoryLevelsUpdate st2 q).1 q).1
          = (inventoryLevelsUpdate st2 q).1 := by
  constructor
  · intro n
    rw [ordersCreateIter_singleton st v vid k nm o hv hid ho hs hk n]
    rfl
  · intro st2 q
    simp only [inventoryLevelsUpdate, List.map_map]
    congr 1
    apply List.map_congr_left
    intro w _
    by_cases hw : w.shopifyInventoryItemId = some q.inventoryItemId
    · simp [Function.comp, hw]
    · simp [Function.comp, hw]

/-- Claim C1, witness: the amended statement at the concrete store and
    order of the counterexample — two deliveries land at
    `max 0 (10 - 2 * 3) = 4`. -/
theorem same_order_event_not_idempotent_witness :
    exStore.variants = [exVariant]
    ∧ (ordersCreateIter exStore exOrder 2).variants.map Variant.stock
        = [max 0 (exVariant.stock - (2 : Nat) * 3)] :=
  ⟨rfl,
   (same_order_event_not_idempotent exStore exVariant 100 3 "Shoe" exOrder
      rfl rfl rfl (by decide) (by decide)).1 2⟩

/-- Claim C5, counterexample: with a two-item order, a db failure at the
    second item leaves the first item's delta committed (stocks [7, 8]
    against initial [10, 8] and fully-processed [7, 6]) — exactly the
    partial state the claim calls unreachable, and the handler performs no
    rollback. -/
theorem partial_application_reachable_counterexample :
    (runItemsWithFailure exStore2 exOrder2.lineItems 1).1.variants.map Variant.stock
      = [7, 8]
    ∧ exStore2.variants.map Variant.stock = [10, 8]
    ∧ (ordersCreate exStore2 exOrder2).1.variants.map Variant.stock = [7, 6]
    ∧ (runItemsWithFailure exStore2 exOrder2.lineItems 1).2 = false
    ∧ (runItemsWithFailure exStore2 exOrder2.lineItems 1).1 ≠ exStore2
    ∧ (runItemsWithFailure exStore2 exOrder2.lineItems 1).1
        ≠ (ordersCreate exStore2 exOrder2).1 := by
  refine ⟨by decide, by decide, by decide, by decide, by decide, by decide⟩

/-- Claim C5, amended: each db statement auto-commits independently (the
    source opens no transaction), so a failure at the `n`-th line item of
    an order leaves exactly the deltas of the first `n` items applied —
    the effects of completed statements are never rolled back; the run
    completes only when `n` reaches past the item list, in which case it
    agrees with the untroubled handler. -/
theorem failure_keeps_completed_deltas (st : Store) (items : List LineItem) (n : Nat) :
    (runItemsWithFailure st items n).1 = (items.take n).foldl processLineItem st
    ∧ ((runItemsWithFailure st items n).2 = true ↔ items.length ≤ n)
    ∧ (items.length ≤ n →
        (runItemsWithFailure st items n).1 = (ordersCreate st ⟨items⟩).1) := by
  have main : ∀ (l : List LineItem) (s : Store) (m : Nat),
      (runItemsWithFailure s l m).1 = (l.take m).foldl processLineItem s
      ∧ ((runItemsWithFailure s l m).2 = true ↔ l.length ≤ m) := by
    intro l
    induction l with
    | nil =>
      intro s m
      refine ⟨?_, ?_⟩ <;> simp [runItemsWithFailure]
    | cons it rest ih =>
      intro s m
      cases m with
      | zero =>
        refine ⟨?_, ?_⟩ <;> simp [runItemsWithFailure]
      | succ m2 =>
        refine ⟨(ih (processLineItem s it) m2).1, ?_⟩
        rw [show runItemsWithFailure s (it :: rest) (m2 + 1)
            = runItemsWithFailure (processLineItem s it) rest m2 from rfl]
        rw [(ih (processLineItem s it) m2).2]
        simp [Nat.succ_le_succ_iff]
  refine ⟨(main items st n).1, (main items st n).2, ?_⟩
  intro hle
  rw [(main items st n).1, List.take_of_length_le hle]
  rfl

/-- Claim C5, witness: the amended statement at the concrete two-item
    order, both at a mid-run failure and at a completed run. -/
theorem failure_keeps_completed_deltas_witness :
    (runItemsWithFailure exStore2 exOrder2.lineItems 1).1
      = (exOrder2.lineItems.take 1).foldl processLineItem exStore2
    ∧ (runItemsWithFailure exStore2 exOrder2.lineItems 3).2 = true
    ∧ (runItemsWithFailure exStore2 exOrder2.lineItems 3).1
        = (ordersCreate exStore2 ⟨exOrder2.lineItems⟩).1 :=
  ⟨(failure_keeps_completed_deltas exStore2 exOrder2.lineItems 1).1,
   (failure_keeps_completed_deltas exStore2 exOrder2.lineItems 3).2.1.mpr (by decide),
   (failure_keeps_completed_deltas exStore2 exOrder2.lineItems 3).2.2 (by decide)⟩

/-- A flat-schema row bound to Shopify product 900 / variant 100 /
    inventory item 110 under SKU `SKU-A`. -/
def exFlatRow : Flat.ProductRow :=
  ⟨1, "Old Shirt", "SKU-A", 5, 3, some 900, some 100, some 110⟩

/-- A sync record for a different remote product (901 / 200 / 210) that
    happens to carry the same SKU `SKU-A`. -/
def exSyncData : Flat.SyncData := ⟨901, 200, 210, "New Shirt", "SKU-A", 6, 4⟩

/-- Claim C4, counterexample: the source defines no `IdentityConflictError`
    anywhere; a sync record whose SKU matches a row already bound to
    external variant id 100 silently rebinds that row to variant id 200 —
    the operation succeeds and the store changes, where the claim demands
    a failure that leaves the store unchanged. -/
theorem sku_match_rebinds_counterexample :
    exFlatRow.shopifyVariantId = some 100
    ∧ exSyncData.shopifyVariantId = 200
    ∧ (Flat.syncProduct [exFlatRow] 2 exSyncData).2.success = true
    ∧ (Flat.syncProduct [exFlatRow] 2 exSyncData).1.map Flat.ProductRow.shopifyVariantId
        = [some 200]
    ∧ (Flat.syncProduct [exFlatRow] 2 exSyncData).1 ≠ [exFlatRow] := by
  refine ⟨rfl, rfl, by decide, by decide, by decide⟩

/-- Claim C4, amended: whenever the sync route matches an existing row —
    by Shopify product id or merely by SKU — it answers success and
    overwrites all three bound external identifiers of that row with the
    incoming ones (silent last-write-wins rebinding); no conflict is ever
    detected or raised. -/
theorem sync_match_overwrites_bindings (st : List Flat.ProductRow) (fresh : Nat)
    (d : Flat.SyncData) (r : Flat.ProductRow)
    (h : st.find? (fun q =>
        q.shopifyProductId = some d.shopifyProductId || q.sku = d.sku) = some r) :
    (Flat.syncProduct st fresh d).2 = ⟨200, true, some "updated"⟩
    ∧ ∀ q ∈ (Flat.syncProduct st fresh d).1, q.id = r.id →
        q.shopifyProductId = some d.shopifyProductId
        ∧ q.shopifyVariantId = some d.shopifyVariantId
        ∧ q.shopifyInventoryItemId = some d.shopifyInventoryItemId := by
  unfold Flat.syncProduct
  rw [h]
  refine ⟨rfl, ?_⟩
  intro q hq hqid
  simp only [List.mem_map] at hq
  obtain ⟨u, hu, rfl⟩ := hq
  by_cases hui : u.id = r.id
  · simp [hui]
  · simp only [if_neg hui] at hqid
    exact absurd hqid hui

/-- Claim C4, witness: the amended statement at the concrete SKU-collision
    store of the counterexample. -/
theorem sync_match_overwrites_bindings_witness :
    ([exFlatRow].find? (fun q =>
        q.shopifyProductId = some exSyncData.shopifyProductId
          || q.sku = exSyncData.sku) = some exFlatRow)
    ∧ ((Flat.syncProduct [exFlatRow] 2 exSyncData).2 = ⟨200, true, some "updated"⟩
       ∧ ∀ q ∈ (Flat.syncProduct [exFlatRow] 2 exSyncData).1, q.id = exFlatRow.id →
           q.shopifyProductId = some exSyncData.shopifyProductId
           ∧ q.shopifyVariantId = some exSyncData.shopifyVariantId
           ∧ q.shopifyInventoryItemId = some exSyncData.shopifyInventoryItemId) :=
  ⟨by decide,
   sync_match_overwrites_bindings [exFlatRow] 2 exSyncData exFlatRow (by decide)⟩

/-- The variant-sync loop of `products/update` never touches the
    `products` table. -/
theorem syncVariants_products_unchanged (pid : Nat) :
    ∀ (vs : List VariantPayload) (acc : Store × Nat),
      ((vs.foldl (syncVariantStep pid) acc).1).products = acc.1.products := by
  intro vs
  induction vs with
  | nil => intro acc; rfl
  | cons v t ih =>
    intro acc
    rw [List.foldl_cons, ih]
    unfold syncVariantStep
    split <;> rfl

/-- A local product with explicit vendor, type, status and description. -/
def exProduct : Product :=
  ⟨3, some 900, some "Old Name", some "desc", "Shoes", "Acme", "draft"⟩

/-- Store holding just `exProduct`. -/
def exProdStore : Store := ⟨[exProduct], []⟩

/-- A product-update payload for product 900 that carries only a title —
    description, type, vendor and status are all omitted. -/
def exUpdatePayload : ProductPayload :=
  ⟨some 900, some "New Name", none, none, none, none, []⟩

/-- Claim C6, counterexample: the update payload omits `vendor`, yet the
    merge replaces the persisted vendor `Acme` with the hard-coded
    `Default Vendor` (and `draft` status with `active`), so an omitted
    field does not keep its previously persisted value. -/
theorem merge_clobbers_omitted_fields_counterexample :
    exUpdatePayload.vendor = none
    ∧ exUpdatePayload.status = none
    ∧ exProdStore.products.map Product.vendor = ["Acme"]
    ∧ (productsUpdate exProdStore 7 9 exUpdatePayload).1.products.map Product.vendor
        = ["Default Vendor"]
    ∧ (productsUpdate exProdStore 7 9 exUpdatePayload).1.products.map Product.status
        = ["active"] := by
  refine ⟨rfl, rfl, by decide, by decide, by decide⟩

/-- Claim C6, amended: for an existing product matched by the update
    event, every descriptive column is overwritten from the payload —
    fields absent from the incoming snapshot are replaced by the source's
    hard-coded defaults (`null` description, `General` type,
    `Default Vendor`, `active` status) rather than left untouched. -/
theorem omitted_fields_overwritten_with_defaults (st : Store) (f g : Nat)
    (p : ProductPayload) (pid : Int) (pr : Product)
    (hid : p.id = some pid)
    (h : st.products.find? (fun q => q.shopifyProductId = some pid) = some pr) :
    ∀ q ∈ (productsUpdate st f g p).1.products, q.shopifyProductId = some pid →
      q.name = p.title
      ∧ q.description = p.bodyHtml
      ∧ q.productType = p.productType.getD "General"
      ∧ q.vendor = p.vendor.getD "Default Vendor"
      ∧ q.status = p.status.getD "active" := by
  intro q hq hqid
  unfold productsUpdate at hq
  rw [hid] at hq
  simp only [h, syncVariants_products_unchanged, List.mem_map] at hq
  obtain ⟨u, hu, rfl⟩ := hq
  by_cases hc : u.shopifyProductId = some pid
  · simp [hc]
  · simp only [if_neg hc] at hqid
    exact absurd hqid hc

/-- Claim C6, witness: the amended statement at the concrete
    vendor-omitting payload of the counterexample. -/
theorem omitted_fields_overwritten_with_defaults_witness :
    exUpdatePayload.id = some 900
    ∧ exProdStore.products.find? (fun q => q.shopifyProductId = some 900)
        = some exProduct
    ∧ ∀ q ∈ (productsUpdate exProdStore 7 9 exUpdatePayload).1.products,
        q.shopifyProductId = some 900 →
        q.name = exUpdatePayload.title
        ∧ q.description = exUpdatePayload.bodyHtml
        ∧ q.productType = exUpdatePayload.productType.getD "General"
        ∧ q.vendor = exUpdatePayload.vendor.getD "Default Vendor"
        ∧ q.status = exUpdatePayload.status.getD "active" :=
  ⟨rfl, by decide,
   omitted_fields_overwritten_with_defaults exProdStore 7 9 exUpdatePayload 900
     exProduct rfl (by decide)⟩

/-- Claim C7: with the secret configured and the raw body available, the
    verifier passes control on (`next`) exactly when the claimed signature
    equals the keyed digest of that exact secret and that exact raw body;
    a request with no signature header is rejected with 401 before any
    processing; any other claimed signature is rejected; and a body whose
    digest differs (any byte flip, by collision resistance of HMAC-SHA256)
    is rejected even against the correct original signature. -/
theorem verifier_accepts_iff_hmac_matches (hmacB : String → String → String)
    (secret rawBody h : String) (hs : secret ≠ "") (hb : rawBody ≠ "") :
    (verifyShopifyWebhook hmacB (some h) secret rawBody = .next
       ↔ h = hmacB secret rawBody)
    ∧ verifyShopifyWebhook hmacB none secret rawBody = .unauthorized
    ∧ (∀ h2 : String, h2 ≠ hmacB secret rawBody →
        verifyShopifyWebhook hmacB (some h2) secret rawBody ≠ .next)
    ∧ (∀ b2 : String, b2 ≠ "" → hmacB secret b2 ≠ hmacB secret rawBody →
        verifyShopifyWebhook hmacB (some (hmacB secret rawBody)) secret b2 ≠ .next) := by
  have key : ∀ (hd body : String), body ≠ "" →
      (verifyShopifyWebhook hmacB (some hd) secret body = .next
        ↔ hd = hmacB secret body) := by
    intro hd body hbody
    simp only [verifyShopifyWebhook]
    rw [if_neg hs, if_neg hbody]
    by_cases hlen : (hmacB secret body).length ≠ hd.length
    · rw [if_pos hlen]
      constructor
      · intro hcontra
        exact absurd hcontra (by simp)
      · intro heq
        exact absurd (by rw [heq]) hlen
    · rw [if_neg hlen]
      by_cases heq : hmacB secret body = hd
      · rw [if_pos heq]
        simp [heq]
      · rw [if_neg heq]
        constructor
        · intro hcontra
          exact absurd hcontra (by simp)
        · intro hcontra
          exact absurd hcontra.symm heq
  refine ⟨key h rawBody hb, rfl, ?_, ?_⟩
  · intro h2 hne hacc
    exact hne ((key h2 rawBody hb).1 hacc)
  · intro b2 hb2 hneq hacc
    exact hneq ((key (hmacB secret rawBody) b2 hb2).1 hacc).symm

/-- Claim C7, witness: with a concrete keyed-digest function, the correct
    signature is accepted and the missing-header request is rejected. -/
theorem verifier_accepts_iff_hmac_matches_witness :
    ("secretk" : String) ≠ ""
    ∧ ("body" : String) ≠ ""
    ∧ verifyShopifyWebhook (fun s b => s ++ b) (some "secretkbody") "secretk" "body"
        = .next
    ∧ verifyShopifyWebhook (fun s b => s ++ b) none "secretk" "body"
        = .unauthorized :=
  ⟨by decide, by decide,
   (verifier_accepts_iff_hmac_matches (fun s b => s ++ b) "secretk" "body"
      "secretkbody" (by decide) (by decide)).1.mpr (by decide),
   (verifier_accepts_iff_hmac_matches (fun s b => s ++ b) "secretk" "body"
      "secretkbody" (by decide) (by decide)).2.1⟩

/-- Looking a variant up by Shopify variant id is unaffected by a stock
    write: `updateVariantStock` preserves `shopify_variant_id`, so an id
    that resolved to nothing still resolves to nothing. -/
theorem find_none_after_updateVariantStock (st : Store) (i : Nat) (n vid : Int)
    (h : findVariantByShopifyId st vid = none) :
    findVariantByShopifyId (updateVariantStock st i n) vid = none := by
  unfold findVariantByShopifyId updateVariantStock at *
  simp only [List.find?_eq_none, List.mem_map] at h ⊢
  rintro x ⟨u, hu, rfl⟩
  have := h u hu
  split <;> simpa using this

/-- Claim C8, Scenario B: an order with one line item resolving to a known
    variant at stock 10 / quantity 3 and one resolving to no variant ends
    with the known variant at stock 7, every other row untouched, the
    unknown item skipped without error, and the handler answering
    200/success. -/
theorem unknown_line_item_skipped (st : Store) (v : Variant) (vid1 vid2 q2 : Int)
    (n1 n2 : String) (o : Order)
    (hf1 : findVariantByShopifyId st vid1 = some v) (hs : v.stock = 10)
    (hf2 : findVariantByShopifyId st vid2 = none)
    (ho : o.lineItems = [⟨some vid1, 3, n1⟩, ⟨some vid2, q2, n2⟩]) :
    (ordersCreate st o).2 = ⟨200, true, none⟩
    ∧ (ordersCreate st o).1.variants =
        st.variants.map (fun w => if w.id = v.id then { w with stock := 7 } else w) := by
  have h1 : processLineItem st ⟨some vid1, 3, n1⟩ =
      updateVariantStock st v.id (max 0 (v.stock - 3)) := by
    simp [processLineItem, hf1]
  have h2 : processLineItem (updateVariantStock st v.id (max 0 (v.stock - 3)))
      ⟨some vid2, q2, n2⟩ =
      updateVariantStock st v.id (max 0 (v.stock - 3)) := by
    simp [processLineItem,
      find_none_after_updateVariantStock st v.id (max 0 (v.stock - 3)) vid2 hf2]
  refine ⟨rfl, ?_⟩
  show (o.lineItems.foldl processLineItem st).variants = _
  rw [ho, List.foldl_cons, List.foldl_cons, List.foldl_nil, h1, h2]
  unfold updateVariantStock
  have hval : max 0 (max 0 (v.stock - 3)) = 7 := by
    rw [hs]
    decide
  simp only [hval]

/-- Claim C8, witness: Scenario B at a concrete store — variant 100 at
    stock 10 is known, variant 999 is not. -/
theorem unknown_line_item_skipped_witness :
    findVariantByShopifyId exStore 100 = some exVariant
    ∧ findVariantByShopifyId exStore 999 = none
    ∧ ((ordersCreate exStore ⟨[⟨some 100, 3, "Shoe"⟩, ⟨some 999, 4, "Ghost"⟩]⟩).2
        = ⟨200, true, none⟩
       ∧ (ordersCreate exStore ⟨[⟨some 100, 3, "Shoe"⟩, ⟨some 999, 4, "Ghost"⟩]⟩).1.variants
        = exStore.variants.map
            (fun w => if w.id = exVariant.id then { w with stock := 7 } else w)) :=
  ⟨by decide, by decide,
   unknown_line_item_skipped exStore exVariant 100 999 4 "Shoe" "Ghost"
     ⟨[⟨some 100, 3, "Shoe"⟩, ⟨some 999, 4, "Ghost"⟩]⟩
     (by decide) (by decide) (by decide) rfl⟩

end IMS

